import Mathlib

/-!
Shallow embedding of the my-wallet-back authentication controller
(`src/controllers/userController.ts`) and the service-layer contracts it
depends on.  The controller is translated directly; the service functions
(`userService.signUpDataValidationError`, `userService.findEmail`,
`userService.createUser`, `userService.isPasswordValid`,
`sessionService.createNewSession`) are not present in the repository
snapshot, so their observable behaviour is modelled from the spec, with the
possible outcomes (result, thrown fault) supplied by an environment record.
Responses and the sequence of store calls performed are returned explicitly
so that frame properties (which store operations ran) can be stated.
-/

namespace MyWallet

/-- A user record of the credential store: `{id, name, email, password}`
where `password` holds the stored hash (column `password` of table `users`). -/
structure User where
  id : Nat
  name : String
  email : String
  password : String
deriving DecidableEq, Repr

/-- A fault thrown by a store call: either a uniqueness conflict reported by
the insert itself, or any other storage-layer error. -/
inductive Fault
  | conflict
  | other
deriving DecidableEq, Repr

/-- The JSON body of a `POST /sign-up` request; a field absent from the JSON
object is `none`. -/
structure SignUpBody where
  name : Option String
  email : Option String
  password : Option String
  repeatPassword : Option String
deriving DecidableEq, Repr

/-- The JSON body of a `POST /sign-in` request; a field absent from the JSON
object is `none`. -/
structure SignInBody where
  email : Option String
  password : Option String
deriving DecidableEq, Repr

/-- The body of an HTTP response: either a plain text message
(`res.status(400).send(validationError.message)`) or the `{name, token}`
object sent on successful sign-in. -/
inductive ResBody
  | text (msg : String)
  | nameToken (name token : String)
deriving DecidableEq, Repr

/-- An HTTP response: status code plus optional body.  `res.sendStatus(n)`
is modelled as status `n` with no body (it carries no error detail). -/
structure Response where
  status : Nat
  body : Option ResBody
deriving DecidableEq, Repr

/-- A store operation performed by the controller, in the order issued. -/
inductive Event
  | findEmail (email : String)
  | createUser (body : SignUpBody)
  | createNewSession (userId : Nat)
deriving DecidableEq, Repr

/-- The environment a request runs against: the credential-store contents and
the outcome of each service call the controller may issue.  `findFault`,
`createFault` and `sessionFault` say whether the corresponding store call
throws; `verify` is the password hasher's verification predicate and `token`
the token generated by session creation. -/
structure Env where
  users : List User
  findFault : Bool
  createFault : Option Fault
  sessionFault : Bool
  verify : String → String → Bool
  token : String

/-- JavaScript falsiness of an optional string field, as tested by
`if (!email || !password)`: an absent field (`undefined`) and the empty
string are falsy, every other string is truthy. -/
def jsFalsy : Option String → Bool
  | none => true
  | some s => s.isEmpty

/-- An optional string field that is present and non-empty. -/
def presentNonEmpty (o : Option String) : Bool :=
  !(jsFalsy o)

/-- Modelled from the spec: an email-shaped string (the spec requires the
sign-up email to be "well-formed (non-empty, email-shaped)"); modelled as
containing an `@`. -/
def emailShaped (s : String) : Bool :=
  s.data.any (fun c => c == '@')

/-- Modelled from the spec: `userService.signUpDataValidationError` (not in
the repository snapshot).  Per the spec, sign-up validation requires `name`,
`email`, `password` all present and well-formed (non-empty, email-shaped for
the email); a malformed body yields a validation error message. -/
def signUpDataValidationError (b : SignUpBody) : Option String :=
  if !(presentNonEmpty b.name) then some "invalid name"
  else if !(presentNonEmpty b.email && emailShaped (b.email.getD "")) then
    some "invalid email"
  else if !(presentNonEmpty b.password) then some "invalid password"
  else none

/-- Modelled from the spec: `userService.findEmail` (not in the repository
snapshot) is the Credential Store's `findByEmail`: exact-match lookup
returning the user or an absence sentinel, never throwing on not-found; a
storage-layer fault is represented by the environment's `findFault` flag. -/
def findEmail (env : Env) (email : String) : Except Fault (Option User) :=
  if env.findFault then .error .other
  else .ok (env.users.find? (fun u => u.email == email))

/-- Translation of the `signUp` controller: validate the body (400 with the
validation message), look up the email (409 when found), insert the user
(201), mapping any fault thrown inside the `try` block to a bare 500.
Returns the response together with the list of store calls issued. -/
def signUp (env : Env) (body : SignUpBody) : Response × List Event :=
  match signUpDataValidationError body with
  | some msg => ({ status := 400, body := some (.text msg) }, [])
  | none =>
    match findEmail env (body.email.getD "") with
    | .error _ => ({ status := 500, body := none }, [.findEmail (body.email.getD "")])
    | .ok (some _) => ({ status := 409, body := none }, [.findEmail (body.email.getD "")])
    | .ok none =>
      match env.createFault with
      | some _ =>
        ({ status := 500, body := none },
          [.findEmail (body.email.getD ""), .createUser body])
      | none =>
        ({ status := 201, body := none },
          [.findEmail (body.email.getD ""), .createUser body])

/-- Translation of the `signIn` controller: reject a falsy email or password
with a bare 400, look up the email (404 when absent), verify the password
(401 on mismatch), create a session and answer 200 with `{name, token}`,
mapping any fault thrown inside the `try` block to a bare 500.  Returns the
response together with the list of store calls issued. -/
def signIn (env : Env) (body : SignInBody) : Response × List Event :=
  if jsFalsy body.email || jsFalsy body.password then
    ({ status := 400, body := none }, [])
  else
    match findEmail env (body.email.getD "") with
    | .error _ => ({ status := 500, body := none }, [.findEmail (body.email.getD "")])
    | .ok none => ({ status := 404, body := none }, [.findEmail (body.email.getD "")])
    | .ok (some user) =>
      if !(env.verify (body.password.getD "") user.password) then
        ({ status := 401, body := none }, [.findEmail (body.email.getD "")])
      else if env.sessionFault then
        ({ status := 500, body := none },
          [.findEmail (body.email.getD ""), .createNewSession user.id])
      else
        ({ status := 200, body := some (.nameToken user.name env.token) },
          [.findEmail (body.email.getD ""), .createNewSession user.id])

/-! Concrete environments and request bodies used to exercise the model. -/

/-- A registered user, as inserted by the test suite's `beforeAll`. -/
def userA : User :=
  { id := 1, name := "Ana", email := "a@x.com", password := "hashA" }

/-- A fault-free environment holding `userA`; the hasher accepts exactly the
password `p1` against `userA`'s stored hash. -/
def envOk : Env :=
  { users := [userA], findFault := false, createFault := none,
    sessionFault := false,
    verify := fun p h => p == "p1" && h == "hashA", token := "tok-1" }

/-- `envOk` with the credential-store lookup throwing. -/
def envFindFault : Env :=
  { envOk with findFault := true }

/-- `envOk` with the insert reporting a uniqueness conflict. -/
def envConflict : Env :=
  { envOk with createFault := some Fault.conflict }

/-- `envOk` with session creation throwing. -/
def envSessionFault : Env :=
  { envOk with sessionFault := true }

/-- A sign-in body matching `userA` with the right password. -/
def goodIn : SignInBody :=
  { email := some "a@x.com", password := some "p1" }

/-- A sign-in body matching `userA` with a wrong password. -/
def wrongPwIn : SignInBody :=
  { email := some "a@x.com", password := some "nope" }

/-- A sign-in body whose email matches no registered user. -/
def unknownIn : SignInBody :=
  { email := some "b@x.com", password := some "p1" }

/-- A sign-in body with a present but empty password field. -/
def emptyPwIn : SignInBody :=
  { email := some "a@x.com", password := some "" }

/-- A valid sign-up body with a fresh email. -/
def goodUp : SignUpBody :=
  { name := some "Bob", email := some "b@x.com", password := some "p2",
    repeatPassword := some "p2" }

/-- A sign-up body whose email is already registered (it is `userA`'s). -/
def dupUp : SignUpBody :=
  { name := some "Ana", email := some "a@x.com", password := some "p1",
    repeatPassword := some "p1" }

/-- A sign-up body with no email field. -/
def noEmailUp : SignUpBody :=
  { name := some "Bob", email := none, password := some "p2",
    repeatPassword := some "p2" }

example : (signIn envOk goodIn).1 =
    { status := 200, body := some (.nameToken "Ana" "tok-1") } := by decide
example : (signIn envOk wrongPwIn).1 = { status := 401, body := none } := by decide
example : (signIn envOk unknownIn).1 = { status := 404, body := none } := by decide
example : (signUp envOk goodUp).1 = { status := 201, body := none } := by decide
example : (signUp envConflict goodUp).1 = { status := 500, body := none } := by decide

/-- C1: for every sign-in request, `createNewSession` is invoked only with
the id of a user record returned by the credential lookup for the request's
email, and only after the supplied password verifies against that record's
stored hash; no session is created for an unknown email or an unverified
password. -/
theorem signIn_session_only_for_verified_user (env : Env) (body : SignInBody) (uid : Nat)
    (h : Event.createNewSession uid ∈ (signIn env body).2) :
    ∃ u : User, findEmail env (body.email.getD "") = .ok (some u) ∧
      uid = u.id ∧ env.verify (body.password.getD "") u.password = true := by
  unfold signIn at h
  split at h
  · simp at h
  · split at h
    · simp at h
    · simp at h
    · rename_i user heq
      split at h
      · simp at h
      · rename_i hv
        simp only [Bool.not_eq_true', Bool.not_eq_false] at hv
        refine ⟨user, heq, ?_, hv⟩
        split at h <;> simpa using h

theorem signIn_session_only_for_verified_user_witness :
    Event.createNewSession 1 ∈ (signIn envOk goodIn).2 ∧
    ∃ u : User, findEmail envOk (goodIn.email.getD "") = .ok (some u) ∧
      1 = u.id ∧ envOk.verify (goodIn.password.getD "") u.password = true :=
  ⟨by decide, signIn_session_only_for_verified_user envOk goodIn 1 (by decide)⟩

/-- C2: a sign-in request that passes presence validation and whose email
matches no user record gets status 404, never 401, when the lookup does not
fault. -/
theorem signIn_unknown_email_404 (env : Env) (body : SignInBody)
    (he : jsFalsy body.email = false) (hp : jsFalsy body.password = false)
    (hf : env.findFault = false)
    (hn : env.users.find? (fun u => u.email == body.email.getD "") = none) :
    (signIn env body).1.status = 404 ∧ (signIn env body).1.status ≠ 401 := by
  unfold signIn findEmail
  rw [he, hp, hf]
  simp [hn]

theorem signIn_unknown_email_404_witness :
    (signIn envOk unknownIn).1.status = 404 ∧ (signIn envOk unknownIn).1.status ≠ 401 :=
  signIn_unknown_email_404 envOk unknownIn (by decide) (by decide) rfl (by decide)

/-- C3: a sign-in request that passes presence validation, whose email
matches a registered user, and whose password fails verification against the
stored hash gets status 401, never 404, when the lookup does not fault. -/
theorem signIn_wrong_password_401 (env : Env) (body : SignInBody) (u : User)
    (he : jsFalsy body.email = false) (hp : jsFalsy body.password = false)
    (hf : env.findFault = false)
    (hu : env.users.find? (fun v => v.email == body.email.getD "") = some u)
    (hv : env.verify (body.password.getD "") u.password = false) :
    (signIn env body).1.status = 401 ∧ (signIn env body).1.status ≠ 404 := by
  unfold signIn findEmail
  rw [he, hp, hf]
  simp [hu, hv]

theorem signIn_wrong_password_401_witness :
    (signIn envOk wrongPwIn).1.status = 401 ∧ (signIn envOk wrongPwIn).1.status ≠ 404 :=
  signIn_wrong_password_401 envOk wrongPwIn userA (by decide) (by decide) rfl
    (by decide) (by decide)

/-- C5: a sign-in request that passes validation, email lookup and password
verification, with no store fault, gets status 200 with a body holding
exactly the matched user's stored name and the token produced by session
creation for that user's id. -/
theorem signIn_success_200_name_token (env : Env) (body : SignInBody) (u : User)
    (he : jsFalsy body.email = false) (hp : jsFalsy body.password = false)
    (hf : env.findFault = false)
    (hu : env.users.find? (fun v => v.email == body.email.getD "") = some u)
    (hv : env.verify (body.password.getD "") u.password = true)
    (hs : env.sessionFault = false) :
    (signIn env body).1 =
      { status := 200, body := some (.nameToken u.name env.token) } ∧
    (signIn env body).2 =
      [Event.findEmail (body.email.getD ""), Event.createNewSession u.id] := by
  unfold signIn findEmail
  rw [he, hp, hf]
  simp [hu, hv, hs]

theorem signIn_success_200_name_token_witness :
    (signIn envOk goodIn).1 =
      { status := 200, body := some (.nameToken userA.name envOk.token) } ∧
    (signIn envOk goodIn).2 =
      [Event.findEmail (goodIn.email.getD ""), Event.createNewSession userA.id] :=
  signIn_success_200_name_token envOk goodIn userA (by decide) (by decide) rfl
    (by decide) (by decide) rfl

/-- C10: a sign-in request in which email or password is present but the
empty string gets status 400 with no store call issued, so it can never
yield 404 or 401. -/
theorem signIn_empty_field_400 (env : Env) (body : SignInBody)
    (h : body.email = some "" ∨ body.password = some "") :
    signIn env body = ({ status := 400, body := none }, []) := by
  unfold signIn
  rcases h with h | h <;>
    simp [h, jsFalsy, show String.isEmpty "" = true from rfl]

theorem signIn_empty_field_400_witness :
    (emptyPwIn.email = some "" ∨ emptyPwIn.password = some "") ∧
    signIn envOk emptyPwIn = ({ status := 400, body := none }, []) :=
  ⟨Or.inr rfl, signIn_empty_field_400 envOk emptyPwIn (Or.inr rfl)⟩

/-- C4 counterexample: a valid sign-up whose lookup finds no user but whose
insert reports a uniqueness conflict is answered with status 500, not 409:
the controller's catch-all maps every fault thrown inside the `try` block,
the insert-time conflict included, to 500. -/
theorem signUp_insert_conflict_not_409 :
    signUpDataValidationError goodUp = none ∧
    envConflict.findFault = false ∧
    envConflict.users.find? (fun v => v.email == goodUp.email.getD "") = none ∧
    envConflict.createFault = some Fault.conflict ∧
    (signUp envConflict goodUp).1.status = 500 ∧
    (signUp envConflict goodUp).1.status ≠ 409 := by
  decide

/-- C4 (amended): when the insert itself reports a uniqueness conflict after
the lookup found no user, the controller answers 500 (the conflict is
swallowed by the generic catch-all as an internal error), not 409; only the
pre-insert lookup produces 409. -/
theorem signUp_insert_conflict_500 (env : Env) (body : SignUpBody)
    (hval : signUpDataValidationError body = none)
    (hf : env.findFault = false)
    (hn : env.users.find? (fun v => v.email == body.email.getD "") = none)
    (hc : env.createFault = some Fault.conflict) :
    (signUp env body).1 = { status := 500, body := none } := by
  unfold signUp findEmail
  rw [hval, hf]
  simp [hn, hc]

theorem signUp_insert_conflict_500_witness :
    (signUp envConflict goodUp).1 = { status := 500, body := none } :=
  signUp_insert_conflict_500 envConflict goodUp (by decide) rfl (by decide) rfl

/-- C6: a sign-up request that passes validation and whose email is already
present in the credential store is answered 409 and performs only the email
lookup: neither `createUser` nor any session creation is invoked. -/
theorem signUp_existing_email_409_no_mutation (env : Env) (body : SignUpBody) (u : User)
    (hval : signUpDataValidationError body = none)
    (hf : env.findFault = false)
    (hu : env.users.find? (fun v => v.email == body.email.getD "") = some u) :
    (signUp env body).1.status = 409 ∧
      (signUp env body).2 = [Event.findEmail (body.email.getD "")] := by
  unfold signUp findEmail
  rw [hval, hf]
  simp [hu]

theorem signUp_existing_email_409_no_mutation_witness :
    (signUp envOk dupUp).1.status = 409 ∧
      (signUp envOk dupUp).2 = [Event.findEmail (dupUp.email.getD "")] :=
  signUp_existing_email_409_no_mutation envOk dupUp userA (by decide) rfl (by decide)

/-- C7: a sign-up request whose name, email or password is absent or not
well-formed (empty, or for the email not email-shaped) is answered 400 and
performs no store operation at all. -/
theorem signUp_malformed_400_no_side_effects (env : Env) (body : SignUpBody)
    (h : presentNonEmpty body.name = false ∨
         presentNonEmpty body.email = false ∨
         emailShaped (body.email.getD "") = false ∨
         presentNonEmpty body.password = false) :
    (signUp env body).1.status = 400 ∧ (signUp env body).2 = [] := by
  have hval : (signUpDataValidationError body).isSome := by
    unfold signUpDataValidationError
    split
    · rfl
    · split
      · rfl
      · split
        · rfl
        · rename_i h1 h2 h3
          simp at h1 h2 h3
          rcases h with h | h | h | h <;> simp_all
  obtain ⟨msg, hmsg⟩ := Option.isSome_iff_exists.mp hval
  unfold signUp
  rw [hmsg]
  exact ⟨rfl, rfl⟩

theorem signUp_malformed_400_no_side_effects_witness :
    presentNonEmpty noEmailUp.email = false ∧
    (signUp envOk noEmailUp).1.status = 400 ∧ (signUp envOk noEmailUp).2 = [] :=
  ⟨rfl, signUp_malformed_400_no_side_effects envOk noEmailUp (Or.inr (Or.inl rfl))⟩

/-- C8: a successful sign-up (valid body, fresh email, insert succeeds) is
answered 201, and the sign-up path never issues a session-creation call for
any request whatsoever. -/
theorem signUp_success_201_no_session (env : Env) (body : SignUpBody)
    (hval : signUpDataValidationError body = none)
    (hf : env.findFault = false)
    (hn : env.users.find? (fun v => v.email == body.email.getD "") = none)
    (hc : env.createFault = none) :
    (signUp env body).1.status = 201 ∧
      ∀ (env' : Env) (b : SignUpBody) (uid : Nat),
        Event.createNewSession uid ∉ (signUp env' b).2 := by
  constructor
  · unfold signUp findEmail
    rw [hval, hf]
    simp [hn, hc]
  · intro env' b uid
    unfold signUp
    split
    · simp
    · split
      · simp
      · simp
      · split <;> simp

theorem signUp_success_201_no_session_witness :
    (signUp envOk goodUp).1.status = 201 ∧
      ∀ (env' : Env) (b : SignUpBody) (uid : Nat),
        Event.createNewSession uid ∉ (signUp env' b).2 :=
  signUp_success_201_no_session envOk goodUp (by decide) rfl (by decide) rfl

/-- C9: whenever a store call throws during sign-up (lookup or insert) or
sign-in (lookup or session creation), the response is exactly status 500
with no body at all, so no error detail reaches the caller. -/
theorem store_fault_500_no_detail (env : Env) (sb : SignUpBody) (ib : SignInBody) :
    (signUpDataValidationError sb = none → env.findFault = true →
      (signUp env sb).1 = { status := 500, body := none }) ∧
    (∀ f : Fault, signUpDataValidationError sb = none → env.findFault = false →
      env.users.find? (fun v => v.email == sb.email.getD "") = none →
      env.createFault = some f →
      (signUp env sb).1 = { status := 500, body := none }) ∧
    (jsFalsy ib.email = false → jsFalsy ib.password = false → env.findFault = true →
      (signIn env ib).1 = { status := 500, body := none }) ∧
    (∀ u : User, jsFalsy ib.email = false → jsFalsy ib.password = false →
      env.findFault = false →
      env.users.find? (fun v => v.email == ib.email.getD "") = some u →
      env.verify (ib.password.getD "") u.password = true → env.sessionFault = true →
      (signIn env ib).1 = { status := 500, body := none }) := by
  refine ⟨?_, ?_, ?_, ?_⟩
  · intro hval hf
    unfold signUp findEmail
    rw [hval, hf]
    simp
  · intro f hval hf hn hc
    unfold signUp findEmail
    rw [hval, hf]
    simp [hn, hc]
  · intro he hp hf
    unfold signIn findEmail
    rw [he, hp, hf]
    simp
  · intro u he hp hf hu hv hs
    unfold signIn findEmail
    rw [he, hp, hf]
    simp [hu, hv, hs]

theorem store_fault_500_no_detail_witness :
    (signUp envFindFault goodUp).1 = { status := 500, body := none } ∧
    (signUp envConflict goodUp).1 = { status := 500, body := none } ∧
    (signIn envFindFault goodIn).1 = { status := 500, body := none } ∧
    (signIn envSessionFault goodIn).1 = { status := 500, body := none } :=
  ⟨(store_fault_500_no_detail envFindFault goodUp goodIn).1 (by decide) rfl,
   (store_fault_500_no_detail envConflict goodUp goodIn).2.1 Fault.conflict
     (by decide) rfl (by decide) rfl,
   (store_fault_500_no_detail envFindFault goodUp goodIn).2.2.1
     (by decide) (by decide) rfl,
   (store_fault_500_no_detail envSessionFault goodUp goodIn).2.2.2 userA
     (by decide) (by decide) rfl (by decide) (by decide) rfl⟩

end MyWallet
